import Mathlib

/-!
# Verification of the cluster-awareness core of the mongo-go-driver excerpt

This file gives a shallow embedding, in Lean 4, of the parts of the Go
driver that the specification talks about:

* the topology manager (`Topology.apply`, `Topology.Subscribe`,
  `Topology.Disconnect`, `Topology.processSRVResults`,
  `Topology.selectServerFromDescription`) from the topology package;
* the operation types (`Insert`, `Count`, `Distinct`, `DropIndexes`,
  `CreateIndexes`) from the operation package: their result parsing and
  the deployment guard in `Execute`.

Go machine integers (`int32`) are modelled as `Int` with explicit
wrap-around where overflow matters.  Go `error` values are modelled by
small inductive types.  Helpers that live in the repository but outside
the excerpt (the `description` package, the SDAM FSM internals, the
executor `driver.Operation.Execute`) are either modelled from the
specification text (marked `Modelled from the spec:` in their doc
comments) or abstracted as function parameters.
-/

set_option autoImplicit false

namespace MongoDriver

/-- A server address.  The Go type is a string `host:port`. -/
abbrev Address := String

/-- Modelled from the spec: `Address.Canonicalize` (the `address` package
is not part of the excerpt).  "Host + port, canonicalised (lowercased
host, default port filled)". -/
def canonicalize (a : String) : Address :=
  let lowered := String.mk (a.data.map Char.toLower)
  if lowered.data.contains (Char.ofNat 58) then lowered else lowered ++ ":27017"

/-- The Go `description.ServerKind`, a closed variant. -/
inductive ServerKind where
  | Unknown
  | Standalone
  | RSPrimary
  | RSSecondary
  | RSArbiter
  | RSOther
  | RSGhost
  | Mongos
  | LoadBalancer
  deriving DecidableEq, Repr

/-- The Go `description.TopologyKind`, a closed variant. -/
inductive TopologyKind where
  | Unknown
  | Single
  | ReplicaSetNoPrimary
  | ReplicaSetWithPrimary
  | Sharded
  | LoadBalanced
  deriving DecidableEq, Repr

/-- The Go `description.TopologyVersion`: process id (an ObjectID, modelled as a
natural number) plus a counter. -/
structure TopologyVersion where
  processID : Nat
  counter : Int
  deriving DecidableEq, Repr

/-- Modelled from the spec: `TopologyVersion.CompareToIncoming` from the
`description` package, which is not part of the excerpt.  The spec says:
"if `oldDesc.topologyVersion` strictly dominates `incoming.topologyVersion`
(same process id and counter is greater), reject the incoming description
and keep the old one.  Ties and incomparable values accept the incoming."
The result is positive exactly when the receiver strictly dominates the
incoming version; absent versions and differing process ids are
incomparable. -/
def TopologyVersion.CompareToIncoming :
    Option TopologyVersion → Option TopologyVersion → Int
  | none, _ => -1
  | some _, none => -1
  | some tv, some incoming =>
    if tv.processID ≠ incoming.processID then -1
    else if tv.counter = incoming.counter then 0
    else if tv.counter < incoming.counter then -1
    else 1

/-- The Go `description.Server`, restricted to the fields that the functions
verified in this file consult: the address, the server kind and the
topology version.  (The remaining fields of the Go struct — RTTs, tags,
set name, hosts lists, … — are never read by `selectServerFromDescription`,
by the `topologyVersion` gate of `Topology.apply`, or by
`processSRVResults`, so they are not represented.) -/
structure Server where
  addr : Address
  kind : ServerKind
  topologyVersion : Option TopologyVersion
  deriving DecidableEq, Repr

/-- The Go `description.NewDefaultServer`: an Unknown server for a fresh address. -/
def NewDefaultServer (addr : Address) : Server :=
  { addr := addr, kind := ServerKind.Unknown, topologyVersion := none }

/-- The Go `description.Topology`, restricted to the fields consulted by the
functions verified here.  `compatibilityErr` models the Go
`CompatibilityErr error` field as the error message (`none` = nil). -/
structure TopologyDesc where
  kind : TopologyKind
  servers : List Server
  sessionTimeoutMinutes : Option Nat
  compatibilityErr : Option String
  deriving DecidableEq, Repr

/-- The zero value `description.Topology{}`. -/
def TopologyDesc.empty : TopologyDesc :=
  { kind := TopologyKind.Unknown
    servers := []
    sessionTimeoutMinutes := none
    compatibilityErr := none }

/-! ## Server selection (`selectServerFromDescription`) -/

/-- The Go `description.ServerSelector`: `SelectServer(Topology, []Server)`
returns a slice of suitable servers or an error (errors modelled as
strings). -/
abbrev ServerSelector := TopologyDesc → List Server → Except String (List Server)

/-- The errors `selectServerFromDescription` can return: either the
compatibility error of the description, returned unchanged, or a
`ServerSelectionError` wrapping the error of the selector together with the
description. -/
inductive SelectionErr where
  | compat (msg : String)
  | serverSelectionError (wrapped : String) (desc : TopologyDesc)
  deriving DecidableEq, Repr

/-- The Go `(*Topology).selectServerFromDescription`: fail with the compatibility
error if set; if the topology is LoadBalanced return all its servers;
otherwise keep only the servers whose kind is not Unknown and run the
selector on that restricted list. -/
def selectServerFromDescription (desc : TopologyDesc) (selector : ServerSelector) :
    Except SelectionErr (List Server) :=
  match desc.compatibilityErr with
  | some e => Except.error (SelectionErr.compat e)
  | none =>
    if desc.kind = TopologyKind.LoadBalanced then
      Except.ok desc.servers
    else
      let allowed := desc.servers.filter (fun s => s.kind ≠ ServerKind.Unknown)
      match selector desc allowed with
      | Except.error err => Except.error (SelectionErr.serverSelectionError err desc)
      | Except.ok suitable => Except.ok suitable

/-! ## The live topology state

The Go `Topology` struct mixes configuration, the FSM, the monitored
server map, the subscriber map and the connection-state counter.  The
embedding keeps the fields that the verified methods read or write.
A subscriber channel of capacity one is modelled as an `Option
TopologyDesc`: `none` is an empty buffer, `some d` a buffer holding the
single pending description `d`. -/

/-- The connection-state counter constants of the topology package. -/
inductive ConnState where
  | disconnected
  | disconnecting
  | connected
  | connecting
  deriving DecidableEq, Repr

/-- A capacity-one channel buffer. -/
abbrev Chan := Option TopologyDesc

/-- Receiving with a `default` branch (`select { case <-ch: default: }`):
drains a pending value if any, leaving the buffer empty. -/
def drainChan (buf : Chan) : Chan :=
  match buf with
  | some _ => none
  | none => none

/-- A blocking send `ch <- v` on a capacity-one buffer: it completes
immediately (returning the new buffer) iff the buffer is empty, otherwise
the sender would block (`none`). -/
def sendChan (buf : Chan) (v : TopologyDesc) : Option Chan :=
  match buf with
  | some _ => none
  | none => some (some v)

/-- The publish step `apply` and `processSRVResults` perform on every
subscriber: drain any stale value, then send the new description.  The
fallback branch is unreachable (the send after a drain always succeeds;
see `sendChan_drainChan`). -/
def publishChan (buf : Chan) (v : TopologyDesc) : Chan :=
  match sendChan (drainChan buf) v with
  | some buf2 => buf2
  | none => buf

/-- Configuration fields of the topology consulted by the verified
methods. -/
structure Config where
  srvMaxHosts : Nat
  deriving DecidableEq, Repr

/-- The live `Topology` state.  `fsmTopology` is `t.fsm.Topology` (the
embedded `description.Topology` of the FSM), `desc` the atomically stored
snapshot `t.desc`, `servers` the keys of the address → monitor map, and
`subscribers` the subscriber channels. -/
structure TopologyState where
  connectionstate : ConnState
  cfg : Config
  fsmTopology : TopologyDesc
  desc : TopologyDesc
  servers : List Address
  serversClosed : Bool
  subscribers : List Chan
  subscriptionsClosed : Bool
  deriving DecidableEq, Repr

/-- The Go `fsm.findServer`: the stored description for an address, if the FSM
knows the address (the Go function returns the index; the embedding
returns the server found at that index). -/
def fsmFindServer (servers : List Server) (addr : Address) : Option Server :=
  servers.find? (fun s => s.addr = addr)

/-- The Go `addServer` on the monitor map: a no-op when the address is already
monitored, otherwise connect a server monitor and record the address. -/
def addServerAddr (servers : List Address) (addr : Address) : List Address :=
  if addr ∈ servers then servers else servers ++ [addr]

/-- Modelled from the spec: `diffTopology` from the `description` package
(not part of the excerpt).  "Diff yields added/removed by address." -/
structure TopologyDiff where
  Added : List Server
  Removed : List Server

/-- Modelled from the spec: servers of `curr` at addresses absent from
`prev` are added; servers of `prev` at addresses absent from `curr` are
removed. -/
def diffTopology (prev curr : TopologyDesc) : TopologyDiff :=
  { Added := curr.servers.filter
      (fun s => ¬ (prev.servers.map Server.addr).contains s.addr)
    Removed := prev.servers.filter
      (fun s => ¬ (curr.servers.map Server.addr).contains s.addr) }

/-- The Go `(*Topology).apply`: apply an incoming server description to the
topology.  The SDAM FSM transition function (`fsm.apply`, outside the
excerpt) is a parameter `fsmApply`; it returns the new topology
description together with the canonical server description to store,
and the embedding updates `fsmTopology` with the returned topology, as
the Go method does through the mutable state of the FSM.

Steps, mirroring the source: look the address up in the FSM; if the
servers are closed or the address is unknown, return the incoming
description with no change.  If the topology version of the stored description
strictly dominates the incoming one (`CompareToIncoming > 0`), return the
stored description with no change.  Otherwise run the FSM, remove and add
monitors per the description diff, store the new snapshot, and publish it
to every subscriber (drain then send). -/
def Topology.apply (fsmApply : TopologyDesc → Server → TopologyDesc × Server)
    (t : TopologyState) (desc : Server) : TopologyState × Server :=
  match fsmFindServer t.fsmTopology.servers desc.addr with
  | none => (t, desc)
  | some oldDesc =>
    if t.serversClosed then (t, desc)
    else if 0 < TopologyVersion.CompareToIncoming oldDesc.topologyVersion desc.topologyVersion then
      (t, oldDesc)
    else
      let prev := t.fsmTopology
      let applied := fsmApply prev desc
      let current := applied.1
      let diff := diffTopology prev current
      let serversAfterRemove :=
        t.servers.filter (fun a => ¬ (diff.Removed.map Server.addr).contains a)
      let serversAfterAdd :=
        diff.Added.foldl (fun acc s => addServerAddr acc s.addr) serversAfterRemove
      ({ t with
          fsmTopology := current
          desc := current
          servers := serversAfterAdd
          subscribers := t.subscribers.map (fun ch => publishChan ch current) },
        applied.2)

/-- The Go `(*Topology).Subscribe`: requires a connected topology; makes a
channel with buffer size one, sends the current description into it, and
registers it (unless subscriptions are closed).  Returns the new state
and the channel of the subscription. -/
def Topology.Subscribe (t : TopologyState) :
    Except String (TopologyState × Chan) :=
  if t.connectionstate ≠ ConnState.connected then
    Except.error "cannot subscribe to Topology that is not connected"
  else
    match sendChan (none : Chan) t.desc with
    | none => Except.error "unreachable: send on a fresh empty channel"
    | some ch =>
      if t.subscriptionsClosed then
        Except.error "cannot subscribe after closeConnection"
      else
        Except.ok ({ t with subscribers := t.subscribers ++ [ch] }, ch)

/-- The Go `(*Topology).Disconnect`: the compare-and-swap on the connection
state fails unless the topology is `connected`, returning
`ErrTopologyClosed` ("topology is closed") with no state change.
Otherwise it closes all server monitors, closes and removes every
subscriber channel, stores the empty description and ends
`disconnected`. -/
def Topology.Disconnect (t : TopologyState) : TopologyState × Option String :=
  if t.connectionstate ≠ ConnState.connected then
    (t, some "topology is closed")
  else
    ({ t with
        connectionstate := ConnState.disconnected
        serversClosed := true
        servers := []
        subscribers := []
        subscriptionsClosed := true
        desc := TopologyDesc.empty },
      none)

/-! ## SRV polling (`processSRVResults`) -/

/-- Modelled from the spec: the host-list diff used by SRV polling
(`diffHostList` lives in the repository outside the excerpt).  "On
success, compute added/removed versus the current address set": hosts of
the SRV result whose canonical address is not currently known are added,
and known addresses that no longer appear in the SRV result are
removed. -/
structure HostListDiff where
  Added : List String
  Removed : List String

/-- Modelled from the spec: see `HostListDiff`. -/
def diffHostList (t : TopologyDesc) (parsedHosts : List String) : HostListDiff :=
  let oldAddrs := t.servers.map Server.addr
  { Added := parsedHosts.filter (fun h => ¬ oldAddrs.contains (canonicalize h))
    Removed := oldAddrs.filter
      (fun a => ¬ (parsedHosts.map canonicalize).contains a) }

/-- Modelled from the spec: `fsm.addServer` (FSM internals are outside
the excerpt) records a newly discovered address as an Unknown server,
leaving the list unchanged when the address is already present. -/
def fsmAddServer (servers : List Server) (addr : Address) : List Server :=
  if servers.any (fun s => s.addr = addr) then servers
  else servers ++ [NewDefaultServer addr]

/-- One removal step of `processSRVResults`: when the address is
monitored, shut its monitor down, drop it from the monitor map and remove
it from the FSM (`fsm.removeServerByAddr`, modelled from the spec as
removal by address). -/
def srvRemoveStep (st : TopologyState) (addr : Address) : TopologyState :=
  if addr ∈ st.servers then
    { st with
        servers := st.servers.erase addr
        fsmTopology := { st.fsmTopology with
          servers := st.fsmTopology.servers.filter (fun s => s.addr ≠ addr) } }
  else st

/-- The addition loop of `processSRVResults`: add hosts until the number
of monitored servers reaches `srvMaxHosts` (when the cap is positive),
canonicalising each added host. -/
def srvAddLoop (maxHosts : Nat) : TopologyState → List String → TopologyState
  | st, [] => st
  | st, a :: rest =>
    if 0 < maxHosts ∧ maxHosts ≤ st.servers.length then st
    else
      let addr := canonicalize a
      srvAddLoop maxHosts
        { st with
            servers := addServerAddr st.servers addr
            fsmTopology := { st.fsmTopology with
              servers := fsmAddServer st.fsmTopology.servers addr } }
        rest

/-- The Go `(*Topology).processSRVResults`: diff the SRV result against the
current topology; stop monitors for removed hosts; if adding every new
host would push the monitored-server count past a positive `srvMaxHosts`,
randomly permute the added list (the random permutation is the parameter
`shuffle`); add hosts up to the cap; store and publish the new
description.  Returns the new state and whether polling continues. -/
def Topology.processSRVResults (shuffle : List String → List String)
    (t : TopologyState) (parsedHosts : List String) : TopologyState × Bool :=
  if t.serversClosed then (t, false)
  else
    let diff := diffHostList t.fsmTopology parsedHosts
    if diff.Added.isEmpty ∧ diff.Removed.isEmpty then (t, true)
    else
      let st1 := (diff.Removed.map canonicalize).foldl srvRemoveStep t
      let added :=
        if 0 < t.cfg.srvMaxHosts ∧
            t.cfg.srvMaxHosts < st1.servers.length + diff.Added.length then
          shuffle diff.Added
        else diff.Added
      let st2 := srvAddLoop t.cfg.srvMaxHosts st1 added
      let newDesc : TopologyDesc :=
        { kind := st2.fsmTopology.kind
          servers := st2.fsmTopology.servers
          sessionTimeoutMinutes := st2.fsmTopology.sessionTimeoutMinutes
          compatibilityErr := none }
      ({ st2 with
          desc := newDesc
          subscribers := st2.subscribers.map (fun ch => publishChan ch newDesc) },
        true)

/-! ## The operation layer

A BSON reply document is modelled as its (already decoded) list of
top-level elements; `bsoncore.Value` as a small closed variant with the
types the verified parsers inspect.  Go `int32` arithmetic wraps, which
is modelled by `wrap32` on `Int`. -/

/-- The BSON value types the verified response parsers inspect. -/
inductive BsonValue where
  | int32 (v : Int)
  | int64 (v : Int)
  | boolean (b : Bool)
  | string (s : String)
  | other
  deriving DecidableEq, Repr

/-- The Go `Value.AsInt32OK`: the numeric value when the BSON type is int32. -/
def BsonValue.AsInt32OK : BsonValue → Option Int
  | BsonValue.int32 v => some v
  | _ => none

/-- One top-level element of a reply document. -/
structure BsonElement where
  key : String
  value : BsonValue
  deriving DecidableEq, Repr

/-- A decoded reply document (its top-level elements, in order). -/
abbrev Document := List BsonElement

/-- Reduction of an `Int` into the value the corresponding Go `int32`
holds (wrap-around in two-complement style). -/
def wrap32 (x : Int) : Int := (x + 2147483648) % 4294967296 - 2147483648

/-- The Go `InsertResult`: number of documents successfully inserted (`int32`). -/
structure InsertResult where
  N : Int
  deriving DecidableEq, Repr

/-- The element loop of `buildInsertResult`: on every element keyed `n`,
read it as int32 into the result, returning an error (with the fields
decoded so far) when the BSON type is wrong. -/
def buildInsertResultLoop : List BsonElement → InsertResult → InsertResult × Option String
  | [], ir => (ir, none)
  | el :: rest, ir =>
    if el.key = "n" then
      match el.value.AsInt32OK with
      | some v => buildInsertResultLoop rest { N := v }
      | none =>
        (ir, some "response field n is type int32, but received another BSON type")
    else buildInsertResultLoop rest ir

/-- The Go `buildInsertResult`: decode an insert reply into an `InsertResult`. -/
def buildInsertResult (response : Document) : InsertResult × Option String :=
  buildInsertResultLoop response { N := 0 }

/-- An external deployment handle (`driver.Deployment`); its contents are
never inspected by the verified code. -/
abbrev Deployment := Unit

/-- The Go `driver.Error`, restricted to the server code field, the only field
`Count.Execute` consults. -/
structure DriverError where
  code : Int
  deriving DecidableEq, Repr

/-- A Go `error` value as seen by the operation layer: either a typed
`driver.Error` or any other error (carrying its message). -/
inductive GoError where
  | driver (e : DriverError)
  | other (msg : String)
  deriving DecidableEq, Repr

/-- The `Insert` operation, restricted to the fields its `Execute` guard
and `processResponse` read or write. -/
structure Insert where
  deployment : Option Deployment
  result : InsertResult
  deriving DecidableEq, Repr

/-- The Go `(*Insert).processResponse`: decode the server reply and add its `n`
into the accumulated result (`i.result.N += ir.N`, `int32` addition). -/
def Insert.processResponse (i : Insert) (serverResponse : Document) :
    Insert × Option String :=
  let built := buildInsertResult serverResponse
  ({ i with result := { N := wrap32 (i.result.N + built.1.N) } }, built.2)

/-- The per-batch reply processing of a multi-batch insert: fold
`processResponse` over the successive server replies, as the executor
does across the split batches of one logical operation. -/
def Insert.processResponses : Insert → List Document → Insert
  | i, [] => i
  | i, r :: rest => Insert.processResponses (Insert.processResponse i r).1 rest

/-- Modelled from the spec: the batch splitting of the executor
(`driver.Operation.Execute` with `Batches` is outside the excerpt).
"If the rendered command would exceed the maxWriteBatchSize of the server,
split: emit as many documents as fit, then continue with the remainder on
the next executor loop iteration."  `splitBatches k docs` is the list of
successive batches of at most `k` documents. -/
def splitBatches {α : Type} (k : Nat) : List α → List (List α)
  | [] => []
  | d :: rest =>
    if k = 0 then []
    else (d :: rest).take k :: splitBatches k ((d :: rest).drop k)
termination_by l => l.length
decreasing_by simp; omega

/-- The Go `(*Insert).Execute`: fail unless a deployment is set, otherwise hand
the assembled `driver.Operation` to the executor (the executor, outside
the excerpt, is the parameter `inner`). -/
def Insert.Execute (inner : Insert → Insert × Option GoError) (i : Insert) :
    Insert × Option GoError :=
  match i.deployment with
  | none =>
    (i, some (GoError.other
      "the Insert operation must have a Deployment set before Execute can be called"))
  | some _ => inner i

/-- The Go `CountResult`: the number of documents found (`int64`). -/
structure CountResult where
  N : Int
  deriving DecidableEq, Repr

/-- The `Count` operation, restricted to the fields its `Execute` guard
and error post-processing read or write. -/
structure Count where
  deployment : Option Deployment
  result : CountResult
  deriving DecidableEq, Repr

/-- The Go `(*Count).Execute`: fail unless a deployment is set; run the
executor; then swallow a `driver.Error` with server code 26
(NamespaceNotFound), turning it into a nil error; return every other
outcome unchanged. -/
def Count.Execute (inner : Count → Count × Option GoError) (c : Count) :
    Count × Option GoError :=
  match c.deployment with
  | none =>
    (c, some (GoError.other
      "the Count operation must have a Deployment set before Execute can be called"))
  | some _ =>
    let res := inner c
    match res.2 with
    | some (GoError.driver e) => if e.code = 26 then (res.1, none) else res
    | _ => res

/-- The Go `DistinctResult`: the distinct values (a `bsoncore.Value`, abstracted;
`none` is the zero value). -/
structure DistinctResult where
  Values : Option BsonValue
  deriving DecidableEq, Repr

/-- The `Distinct` operation, restricted to the fields its `Execute`
guard reads. -/
structure Distinct where
  deployment : Option Deployment
  result : DistinctResult
  deriving DecidableEq, Repr

/-- The Go `(*Distinct).Execute`: fail unless a deployment is set, otherwise run
the executor. -/
def Distinct.Execute (inner : Distinct → Distinct × Option GoError) (d : Distinct) :
    Distinct × Option GoError :=
  match d.deployment with
  | none =>
    (d, some (GoError.other
      "the Distinct operation must have a Deployment set before Execute can be called"))
  | some _ => inner d

/-- The Go `DropIndexesResult`: number of indexes that existed before the drop
(`int32`). -/
structure DropIndexesResult where
  NIndexesWas : Int
  deriving DecidableEq, Repr

/-- The `DropIndexes` operation, restricted to the fields its `Execute`
guard reads. -/
structure DropIndexes where
  deployment : Option Deployment
  result : DropIndexesResult
  deriving DecidableEq, Repr

/-- The Go `(*DropIndexes).Execute`: fail unless a deployment is set, otherwise
run the executor. -/
def DropIndexes.Execute (inner : DropIndexes → DropIndexes × Option GoError)
    (di : DropIndexes) : DropIndexes × Option GoError :=
  match di.deployment with
  | none =>
    (di, some (GoError.other
      "the DropIndexes operation must have a Deployment set before Execute can be called"))
  | some _ => inner di

/-- The Go `CreateIndexesResult` result value. -/
structure CreateIndexesResult where
  CreatedCollectionAutomatically : Bool
  IndexesAfter : Int
  IndexesBefore : Int
  deriving DecidableEq, Repr

/-- The `CreateIndexes` operation, restricted to the fields its `Execute`
guard reads. -/
structure CreateIndexes where
  deployment : Option Deployment
  result : CreateIndexesResult
  deriving DecidableEq, Repr

/-- The Go `(*CreateIndexes).Execute`: fail unless a deployment is set,
otherwise run the executor. -/
def CreateIndexes.Execute (inner : CreateIndexes → CreateIndexes × Option GoError)
    (ci : CreateIndexes) : CreateIndexes × Option GoError :=
  match ci.deployment with
  | none =>
    (ci, some (GoError.other
      "the CreateIndexes operation must have a Deployment set before Execute can be called"))
  | some _ => inner ci

/-! ## Concrete example values used by witnesses and counterexamples -/

/-- A load-balancer server description. -/
def lbServer : Server :=
  { addr := "lb.example.com:27017", kind := ServerKind.LoadBalancer,
    topologyVersion := none }

/-- A LoadBalanced description carrying a compatibility error. -/
def lbIncompatDesc : TopologyDesc :=
  { kind := TopologyKind.LoadBalanced
    servers := [lbServer]
    sessionTimeoutMinutes := none
    compatibilityErr := some "server reports wire version 2, driver requires at least 6" }

/-- A LoadBalanced description with no compatibility error. -/
def lbHealthyDesc : TopologyDesc :=
  { kind := TopologyKind.LoadBalanced
    servers := [lbServer]
    sessionTimeoutMinutes := none
    compatibilityErr := none }

/-- A selector that accepts every candidate it is offered. -/
def acceptAllSelector : ServerSelector := fun _ candidates => Except.ok candidates

/-- A primary, a secondary and an Unknown server for selection examples. -/
def examplePrimary : Server :=
  { addr := "a.example.com:27017", kind := ServerKind.RSPrimary, topologyVersion := none }

/-- See `examplePrimary`. -/
def exampleSecondary : Server :=
  { addr := "b.example.com:27017", kind := ServerKind.RSSecondary, topologyVersion := none }

/-- See `examplePrimary`. -/
def exampleUnknown : Server :=
  { addr := "c.example.com:27017", kind := ServerKind.Unknown, topologyVersion := none }

/-- A replica-set description with one Unknown member. -/
def exampleRSDesc : TopologyDesc :=
  { kind := TopologyKind.ReplicaSetWithPrimary
    servers := [examplePrimary, exampleSecondary, exampleUnknown]
    sessionTimeoutMinutes := some 30
    compatibilityErr := none }

/-- A sharded description carrying a compatibility error. -/
def exampleIncompatDesc : TopologyDesc :=
  { kind := TopologyKind.Sharded
    servers := [examplePrimary]
    sessionTimeoutMinutes := none
    compatibilityErr := some "server reports wire version 1, driver requires at least 6" }

/-- A connected topology state monitoring one address. -/
def exampleConnected : TopologyState :=
  { connectionstate := ConnState.connected
    cfg := { srvMaxHosts := 0 }
    fsmTopology := exampleRSDesc
    desc := exampleRSDesc
    servers := ["a.example.com:27017", "b.example.com:27017", "c.example.com:27017"]
    serversClosed := false
    subscribers := [some TopologyDesc.empty, none]
    subscriptionsClosed := false }

/-- A stored primary description whose topology version is process 7,
counter 5. -/
def exampleStoredPrimary : Server :=
  { addr := "a.example.com:27017", kind := ServerKind.RSPrimary,
    topologyVersion := some { processID := 7, counter := 5 } }

/-- An incoming description for the same address with the same process id
and a smaller counter (stale). -/
def exampleStaleIncoming : Server :=
  { addr := "a.example.com:27017", kind := ServerKind.Unknown,
    topologyVersion := some { processID := 7, counter := 3 } }

/-- An incoming description for the same address with a different process
id (incomparable). -/
def exampleFreshIncoming : Server :=
  { addr := "a.example.com:27017", kind := ServerKind.RSSecondary,
    topologyVersion := some { processID := 9, counter := 0 } }

/-- A topology state whose FSM knows `exampleStoredPrimary`. -/
def exampleApplyState : TopologyState :=
  { connectionstate := ConnState.connected
    cfg := { srvMaxHosts := 0 }
    fsmTopology :=
      { kind := TopologyKind.ReplicaSetWithPrimary
        servers := [exampleStoredPrimary]
        sessionTimeoutMinutes := none
        compatibilityErr := none }
    desc :=
      { kind := TopologyKind.ReplicaSetWithPrimary
        servers := [exampleStoredPrimary]
        sessionTimeoutMinutes := none
        compatibilityErr := none }
    servers := ["a.example.com:27017"]
    serversClosed := false
    subscribers := [none]
    subscriptionsClosed := false }

/-- An FSM transition that stores the incoming description verbatim (used
only to instantiate the `fsmApply` parameter in witnesses). -/
def identityFsmApply : TopologyDesc → Server → TopologyDesc × Server :=
  fun td s =>
    ({ td with servers := td.servers.map (fun o => if o.addr = s.addr then s else o) }, s)

/-- An SRV-capped topology state: cap 3, currently monitoring h1 and h2
(scenario 5 of the spec). -/
def exampleSRVState : TopologyState :=
  { connectionstate := ConnState.connected
    cfg := { srvMaxHosts := 3 }
    fsmTopology :=
      { kind := TopologyKind.Unknown
        servers := [NewDefaultServer "h1.example.com:27017", NewDefaultServer "h2.example.com:27017"]
        sessionTimeoutMinutes := none
        compatibilityErr := none }
    desc := TopologyDesc.empty
    servers := ["h1.example.com:27017", "h2.example.com:27017"]
    serversClosed := false
    subscribers := [none]
    subscriptionsClosed := false }

/-- The SRV poll result for scenario 5: five hosts, two already known. -/
def exampleSRVHosts : List String :=
  ["h1.example.com:27017", "h2.example.com:27017", "h3.example.com:27017",
   "h4.example.com:27017", "h5.example.com:27017"]

/-- A reply document reporting `n = 10000`. -/
def exampleBatchReply : Document :=
  [{ key := "ok", value := BsonValue.int32 1 },
   { key := "n", value := BsonValue.int32 10000 }]

/-! ## Helper lemmas -/

/-- The comparison `CompareToIncoming` is positive exactly when the stored version
strictly dominates the incoming one: both versions present, same process
id, and the stored counter strictly greater. -/
theorem compareToIncoming_pos_iff (o i : Option TopologyVersion) :
    0 < TopologyVersion.CompareToIncoming o i ↔
      ∃ otv itv, o = some otv ∧ i = some itv ∧
        otv.processID = itv.processID ∧ itv.counter < otv.counter := by
  cases o with
  | none => simp [TopologyVersion.CompareToIncoming]
  | some otv =>
    cases i with
    | none => simp [TopologyVersion.CompareToIncoming]
    | some itv =>
      unfold TopologyVersion.CompareToIncoming
      simp only [Option.some.injEq]
      constructor
      · intro h
        by_cases hp : otv.processID = itv.processID
        · by_cases he : otv.counter = itv.counter
          · simp [hp, he] at h
          · by_cases hl : otv.counter < itv.counter
            · simp [hp, he, hl] at h
            · exact ⟨otv, itv, rfl, rfl, hp, by omega⟩
        · simp [hp] at h
      · rintro ⟨otv2, itv2, h1, h2, hp, hl⟩
        cases h1
        cases h2
        have hne : ¬ otv.counter = itv.counter := by omega
        have hnl : ¬ otv.counter < itv.counter := by omega
        simp [hp, hne, hnl]

/-- A drained capacity-one channel always accepts the next send, and the
buffer then holds exactly the sent value. -/
theorem sendChan_drainChan (buf : Chan) (v : TopologyDesc) :
    sendChan (drainChan buf) v = some (some v) := by
  cases buf <;> rfl

/-- The publish step leaves every channel holding exactly the published
description. -/
theorem publishChan_eq (buf : Chan) (v : TopologyDesc) :
    publishChan buf v = some v := by
  unfold publishChan
  rw [sendChan_drainChan]

/-! ## Claims about server selection -/

/-- C2: for every topology description with a non-nil compatibility
error, `selectServerFromDescription` fails immediately with exactly that
error, for every selector and every server set, before the Unknown-server
filter or the selector can run. -/
theorem selection_fails_fast_on_compat_error
    (desc : TopologyDesc) (selector : ServerSelector) (e : String)
    (h : desc.compatibilityErr = some e) :
    selectServerFromDescription desc selector = Except.error (SelectionErr.compat e) := by
  unfold selectServerFromDescription
  rw [h]

/-- Witness for C2: a sharded description with a compatibility error
fails with that error even under the accept-everything selector. -/
theorem selection_fails_fast_on_compat_error_witness :
    selectServerFromDescription exampleIncompatDesc acceptAllSelector =
      Except.error (SelectionErr.compat
        "server reports wire version 1, driver requires at least 6") :=
  selection_fails_fast_on_compat_error exampleIncompatDesc acceptAllSelector _ rfl

/-- C3: for a description that is not LoadBalanced and has no
compatibility error, the candidate list handed to the selection predicate
contains exactly the servers whose kind is not Unknown, and the suitable
servers returned are exactly the output of the predicate on that restricted
list. -/
theorem selection_excludes_unknown_servers
    (desc : TopologyDesc) (selector : ServerSelector)
    (hk : desc.kind ≠ TopologyKind.LoadBalanced)
    (hc : desc.compatibilityErr = none) :
    (∀ s : Server,
        s ∈ desc.servers.filter (fun s => s.kind ≠ ServerKind.Unknown) ↔
          s ∈ desc.servers ∧ s.kind ≠ ServerKind.Unknown) ∧
    (∀ out : List Server,
        selector desc (desc.servers.filter (fun s => s.kind ≠ ServerKind.Unknown)) =
          Except.ok out →
        selectServerFromDescription desc selector = Except.ok out) := by
  constructor
  · intro s
    simp [List.mem_filter]
  · intro out hout
    unfold selectServerFromDescription
    rw [hc]
    simp only [if_neg hk]
    rw [hout]

/-- Witness for C3: on a replica set with an Unknown member, the
accept-everything selector receives and returns exactly the two known
members. -/
theorem selection_excludes_unknown_servers_witness :
    exampleUnknown ∉ exampleRSDesc.servers.filter (fun s => s.kind ≠ ServerKind.Unknown) ∧
    selectServerFromDescription exampleRSDesc acceptAllSelector =
      Except.ok [examplePrimary, exampleSecondary] := by
  have h := selection_excludes_unknown_servers exampleRSDesc acceptAllSelector
    (by decide) rfl
  refine ⟨?_, h.2 [examplePrimary, exampleSecondary] rfl⟩
  intro hmem
  have := (h.1 exampleUnknown).mp hmem
  exact this.2 rfl

/-- Counterexample for C7 as stated: a LoadBalanced description that
carries a compatibility error does not yield its single server — the
selection fails with the compatibility error instead (the claim quantifies
over every LoadBalanced description, including incompatible ones). -/
theorem loadbalanced_selection_counterexample :
    lbIncompatDesc.kind = TopologyKind.LoadBalanced ∧
    lbIncompatDesc.servers = [lbServer] ∧
    selectServerFromDescription lbIncompatDesc acceptAllSelector ≠
      Except.ok [lbServer] := by
  refine ⟨rfl, rfl, ?_⟩
  have hval : selectServerFromDescription lbIncompatDesc acceptAllSelector =
      Except.error (SelectionErr.compat
        "server reports wire version 2, driver requires at least 6") := rfl
  rw [hval]
  exact fun hcontra => Except.noConfusion hcontra

/-- C7 (amended): for every LoadBalanced description with no
compatibility error whose server list is the single server `s`, selection
returns `[s]` for every selector — the predicate is never consulted and
the load balancer is always selectable. -/
theorem loadbalanced_always_selectable
    (desc : TopologyDesc) (selector : ServerSelector) (s : Server)
    (hk : desc.kind = TopologyKind.LoadBalanced)
    (hc : desc.compatibilityErr = none)
    (hs : desc.servers = [s]) :
    selectServerFromDescription desc selector = Except.ok [s] := by
  unfold selectServerFromDescription
  rw [hc, if_pos hk, hs]

/-- Witness for C7 (amended): a healthy LoadBalanced description yields
its single load balancer under a rejecting selector as well. -/
theorem loadbalanced_always_selectable_witness :
    selectServerFromDescription lbHealthyDesc (fun _ _ => Except.ok []) =
      Except.ok [lbServer] :=
  loadbalanced_always_selectable lbHealthyDesc (fun _ _ => Except.ok []) lbServer
    rfl rfl rfl

/-! ## Claims about the topology manager -/

/-- C1: when an incoming server description reaches `Topology.apply` for
a known address, and the topology version of the stored description strictly
dominates the incoming one (same process id, strictly greater counter),
the incoming description is rejected: `apply` returns the stored
description and the whole topology state — in particular the stored
snapshot — is unchanged.  When the versions are equal or incomparable,
the incoming description is accepted and passed to the FSM: the returned
server description is the canonical FSM output, and the new FSM
topology is stored as the snapshot. -/
theorem apply_rejects_dominated_topology_version
    (fsmApply : TopologyDesc → Server → TopologyDesc × Server)
    (t : TopologyState) (desc oldDesc : Server)
    (hclosed : t.serversClosed = false)
    (hfind : fsmFindServer t.fsmTopology.servers desc.addr = some oldDesc) :
    ((∃ otv itv, oldDesc.topologyVersion = some otv ∧ desc.topologyVersion = some itv ∧
        otv.processID = itv.processID ∧ itv.counter < otv.counter) →
      Topology.apply fsmApply t desc = (t, oldDesc)) ∧
    (¬ (∃ otv itv, oldDesc.topologyVersion = some otv ∧ desc.topologyVersion = some itv ∧
        otv.processID = itv.processID ∧ itv.counter < otv.counter) →
      (Topology.apply fsmApply t desc).2 = (fsmApply t.fsmTopology desc).2 ∧
      (Topology.apply fsmApply t desc).1.desc = (fsmApply t.fsmTopology desc).1 ∧
      (Topology.apply fsmApply t desc).1.fsmTopology = (fsmApply t.fsmTopology desc).1) := by
  constructor
  · intro hdom
    have hpos : 0 < TopologyVersion.CompareToIncoming oldDesc.topologyVersion
        desc.topologyVersion :=
      (compareToIncoming_pos_iff _ _).mpr hdom
    unfold Topology.apply
    rw [hfind]
    simp [hclosed, hpos]
  · intro hndom
    have hnpos : ¬ 0 < TopologyVersion.CompareToIncoming oldDesc.topologyVersion
        desc.topologyVersion :=
      fun hpos => hndom ((compareToIncoming_pos_iff _ _).mp hpos)
    unfold Topology.apply
    rw [hfind]
    simp [hclosed, hnpos]

/-- Witness for C1: with the stored primary at process 7 / counter 5, a
stale incoming description at process 7 / counter 3 is rejected and the
state is untouched, while an incoming description from process 9 is
incomparable and goes through the FSM. -/
theorem apply_rejects_dominated_topology_version_witness :
    Topology.apply identityFsmApply exampleApplyState exampleStaleIncoming =
      (exampleApplyState, exampleStoredPrimary) ∧
    (Topology.apply identityFsmApply exampleApplyState exampleFreshIncoming).2 =
      (identityFsmApply exampleApplyState.fsmTopology exampleFreshIncoming).2 := by
  constructor
  · exact (apply_rejects_dominated_topology_version identityFsmApply exampleApplyState
      exampleStaleIncoming exampleStoredPrimary rfl rfl).1
      ⟨{ processID := 7, counter := 5 }, { processID := 7, counter := 3 },
        rfl, rfl, rfl, by decide⟩
  · refine ((apply_rejects_dominated_topology_version identityFsmApply exampleApplyState
      exampleFreshIncoming exampleStoredPrimary rfl rfl).2 ?_).1
    rintro ⟨otv, itv, h1, h2, hp, _⟩
    have ho : otv = { processID := 7, counter := 5 } := by
      have : some otv = some { processID := 7, counter := 5 } := h1.symm
      exact (Option.some.injEq _ _ ▸ this : otv = _)
    have hi : itv = { processID := 9, counter := 0 } := by
      have : some itv = some { processID := 9, counter := 0 } := h2.symm
      exact (Option.some.injEq _ _ ▸ this : itv = _)
    rw [ho, hi] at hp
    exact absurd hp (by decide)

/-- Every channel produced by the publish map holds exactly the
published description. -/
theorem mem_map_publishChan (subs : List Chan) (v : TopologyDesc) :
    ∀ ch ∈ subs.map (fun c => publishChan c v), ch = some v := by
  intro ch hch
  rcases List.mem_map.mp hch with ⟨c, _, rfl⟩
  exact publishChan_eq c v

/-- C4: the subscriber channel contract.  `Subscribe` on a connected
topology returns a capacity-one channel (a one-slot buffer in this
embedding) pre-populated with the current description and registers it;
a drained one-slot buffer always accepts the next send, so the
drain-then-send of the publisher never blocks and leaves exactly the latest
description in the buffer; and after a publishing `apply` (accepted
incoming description) or a publishing `processSRVResults` (changed host
set), every subscriber buffer holds exactly the newly stored
description. -/
theorem subscriber_channel_contract
    (t : TopologyState)
    (hconn : t.connectionstate = ConnState.connected)
    (hopen : t.subscriptionsClosed = false) :
    Topology.Subscribe t =
      Except.ok ({ t with subscribers := t.subscribers ++ [some t.desc] }, some t.desc) ∧
    (∀ (buf : Chan) (v : TopologyDesc), sendChan (drainChan buf) v = some (some v)) ∧
    (∀ (fsmApply : TopologyDesc → Server → TopologyDesc × Server)
        (st : TopologyState) (d oldDesc : Server),
        st.serversClosed = false →
        fsmFindServer st.fsmTopology.servers d.addr = some oldDesc →
        ¬ 0 < TopologyVersion.CompareToIncoming oldDesc.topologyVersion d.topologyVersion →
        ∀ ch ∈ (Topology.apply fsmApply st d).1.subscribers,
          ch = some (Topology.apply fsmApply st d).1.desc) ∧
    (∀ (shuffle : List String → List String) (st : TopologyState) (hosts : List String),
        st.serversClosed = false →
        ¬ ((diffHostList st.fsmTopology hosts).Added.isEmpty ∧
            (diffHostList st.fsmTopology hosts).Removed.isEmpty) →
        ∀ ch ∈ (Topology.processSRVResults shuffle st hosts).1.subscribers,
          ch = some (Topology.processSRVResults shuffle st hosts).1.desc) := by
  refine ⟨?_, ?_, ?_, ?_⟩
  · unfold Topology.Subscribe
    rw [if_neg (fun hne => hne hconn)]
    simp only [sendChan]
    rw [if_neg (fun hcl => by rw [hopen] at hcl; exact Bool.noConfusion hcl)]
  · exact sendChan_drainChan
  · intro fsmApply st d oldDesc hclosed hfind hnpos
    unfold Topology.apply
    rw [hfind]
    simp only [hclosed, Bool.false_eq_true, if_false, if_neg hnpos]
    exact mem_map_publishChan _ _
  · intro shuffle st hosts hclosed hne
    unfold Topology.processSRVResults
    simp only [hclosed, Bool.false_eq_true, if_false, if_neg hne]
    exact mem_map_publishChan _ _

/-- Witness for C4: on a concrete connected topology, `Subscribe` yields
a channel holding the current description, and a stale buffer accepts a
publish of the replica-set description. -/
theorem subscriber_channel_contract_witness :
    Topology.Subscribe exampleConnected =
      Except.ok ({ exampleConnected with
        subscribers := exampleConnected.subscribers ++ [some exampleRSDesc] },
        some exampleRSDesc) ∧
    sendChan (drainChan (some TopologyDesc.empty)) exampleRSDesc =
      some (some exampleRSDesc) := by
  have h := subscriber_channel_contract exampleConnected rfl rfl
  exact ⟨h.1, h.2.1 (some TopologyDesc.empty) exampleRSDesc⟩

/-- Counterexample for C6 as stated: after a completed `Disconnect`, a
second `Disconnect` does not return nil — the failed compare-and-swap on
the connection state returns `ErrTopologyClosed` ("topology is closed").
The topology does stay disconnected. -/
theorem disconnect_counterexample :
    (Topology.Disconnect exampleConnected).1.connectionstate = ConnState.disconnected ∧
    (Topology.Disconnect (Topology.Disconnect exampleConnected).1).2 =
      some "topology is closed" ∧
    (Topology.Disconnect (Topology.Disconnect exampleConnected).1).2 ≠ none := by
  refine ⟨rfl, rfl, ?_⟩
  intro h
  exact Option.noConfusion h

/-- C6 (amended): `Disconnect` on a topology that is already
`Disconnected` performs no further teardown — it returns
`ErrTopologyClosed` and leaves the state (in particular, disconnected)
unchanged. -/
theorem disconnect_after_disconnect_is_noop
    (t : TopologyState) (h : t.connectionstate = ConnState.disconnected) :
    Topology.Disconnect t = (t, some "topology is closed") ∧
    (Topology.Disconnect t).1.connectionstate = ConnState.disconnected := by
  have hne : t.connectionstate ≠ ConnState.connected := by
    rw [h]
    intro hc
    exact ConnState.noConfusion hc
  constructor
  · unfold Topology.Disconnect
    rw [if_pos hne]
  · unfold Topology.Disconnect
    rw [if_pos hne]
    exact h

/-- Witness for C6 (amended): the state reached by disconnecting a
connected topology is disconnected, and a second disconnect is a no-op
returning `ErrTopologyClosed`. -/
theorem disconnect_after_disconnect_is_noop_witness :
    Topology.Disconnect (Topology.Disconnect exampleConnected).1 =
      ((Topology.Disconnect exampleConnected).1, some "topology is closed") :=
  (disconnect_after_disconnect_is_noop (Topology.Disconnect exampleConnected).1 rfl).1

/-! ## Lemmas for SRV processing -/

/-- Adding a server address grows the monitor map by at most one. -/
theorem addServerAddr_length (servers : List Address) (addr : Address) :
    (addServerAddr servers addr).length ≤ servers.length + 1 := by
  unfold addServerAddr
  split
  · omega
  · simp

/-- Members of the monitor map after an add come from the map or are the
added address. -/
theorem addServerAddr_mem (servers : List Address) (addr a : Address)
    (h : a ∈ addServerAddr servers addr) : a ∈ servers ∨ a = addr := by
  unfold addServerAddr at h
  split at h
  · exact Or.inl h
  · rcases List.mem_append.mp h with h1 | h2
    · exact Or.inl h1
    · exact Or.inr (List.mem_singleton.mp h2)

/-- One SRV removal step never adds monitored addresses. -/
theorem srvRemoveStep_sublist (st : TopologyState) (a : Address) :
    (srvRemoveStep st a).servers.Sublist st.servers := by
  unfold srvRemoveStep
  split
  · exact List.erase_sublist _ _
  · exact List.Sublist.refl _

/-- The SRV removal loop never adds monitored addresses. -/
theorem foldl_srvRemoveStep_sublist (rs : List Address) :
    ∀ st : TopologyState, ((rs.foldl srvRemoveStep st).servers).Sublist st.servers := by
  induction rs with
  | nil => intro st; exact List.Sublist.refl _
  | cons r rest ih =>
    intro st
    exact (ih (srvRemoveStep st r)).trans (srvRemoveStep_sublist st r)

/-- The SRV addition loop keeps the monitored-server count within a
positive cap it starts within. -/
theorem srvAddLoop_length (maxHosts : Nat) (hpos : 0 < maxHosts) :
    ∀ (l : List String) (st : TopologyState), st.servers.length ≤ maxHosts →
      (srvAddLoop maxHosts st l).servers.length ≤ maxHosts := by
  intro l
  induction l with
  | nil => intro st h; exact h
  | cons a rest ih =>
    intro st h
    unfold srvAddLoop
    split
    · exact h
    · rename_i hcond
      have hlt : st.servers.length < maxHosts := by
        by_contra hge
        exact hcond ⟨hpos, by omega⟩
      apply ih
      have := addServerAddr_length st.servers (canonicalize a)
      simp only []
      omega

/-- Every address present after the SRV addition loop was already
monitored or is the canonical form of one of the looped hosts. -/
theorem srvAddLoop_mem (maxHosts : Nat) :
    ∀ (l : List String) (st : TopologyState) (a : Address),
      a ∈ (srvAddLoop maxHosts st l).servers →
      a ∈ st.servers ∨ ∃ h ∈ l, a = canonicalize h := by
  intro l
  induction l with
  | nil => intro st a h; exact Or.inl h
  | cons x rest ih =>
    intro st a h
    unfold srvAddLoop at h
    split at h
    · exact Or.inl h
    · rcases ih _ a h with h1 | ⟨hh, hmem, heq⟩
      · rcases addServerAddr_mem st.servers (canonicalize x) a h1 with h3 | h4
        · exact Or.inl h3
        · exact Or.inr ⟨x, List.mem_cons_self x rest, h4⟩
      · exact Or.inr ⟨hh, List.mem_cons_of_mem x hmem, heq⟩

/-- C5: for every SRV poll processed with a positive `srvMaxHosts` by a
topology currently within the cap, and any permutation `shuffle` (the
random permutation applied when adding everything would exceed the cap),
after `processSRVResults` the number of monitored servers never exceeds
`srvMaxHosts`, and every monitored address was either already monitored
or is the canonical form of a host of the resolved SRV host list. -/
theorem srv_polling_respects_srvMaxHosts
    (shuffle : List String → List String)
    (hshuffle : ∀ l : List String, (shuffle l).Perm l)
    (t : TopologyState) (hosts : List String)
    (hcap : 0 < t.cfg.srvMaxHosts)
    (hinv : t.servers.length ≤ t.cfg.srvMaxHosts) :
    (Topology.processSRVResults shuffle t hosts).1.servers.length ≤ t.cfg.srvMaxHosts ∧
    ∀ a ∈ (Topology.processSRVResults shuffle t hosts).1.servers,
      a ∈ t.servers ∨ ∃ h ∈ hosts, a = canonicalize h := by
  by_cases hsc : t.serversClosed = true
  · constructor
    · simp only [Topology.processSRVResults, hsc, if_true]
      exact hinv
    · intro a ha
      simp only [Topology.processSRVResults, hsc, if_true] at ha
      exact Or.inl ha
  · have hscf : t.serversClosed = false := by
      cases hval : t.serversClosed
      · rfl
      · exact absurd hval hsc
    by_cases hdiff : (diffHostList t.fsmTopology hosts).Added.isEmpty ∧
        (diffHostList t.fsmTopology hosts).Removed.isEmpty
    · constructor
      · simp only [Topology.processSRVResults, hscf, Bool.false_eq_true, if_false,
          if_pos hdiff]
        exact hinv
      · intro a ha
        simp only [Topology.processSRVResults, hscf, Bool.false_eq_true, if_false,
          if_pos hdiff] at ha
        exact Or.inl ha
    · have hkey : (Topology.processSRVResults shuffle t hosts).1.servers =
          (srvAddLoop t.cfg.srvMaxHosts
            (((diffHostList t.fsmTopology hosts).Removed.map canonicalize).foldl
              srvRemoveStep t)
            (if 0 < t.cfg.srvMaxHosts ∧ t.cfg.srvMaxHosts <
                ((((diffHostList t.fsmTopology hosts).Removed.map canonicalize).foldl
                  srvRemoveStep t).servers).length +
                (diffHostList t.fsmTopology hosts).Added.length then
              shuffle (diffHostList t.fsmTopology hosts).Added
            else (diffHostList t.fsmTopology hosts).Added)).servers := by
        simp only [Topology.processSRVResults, hscf, Bool.false_eq_true, if_false,
          if_neg hdiff]
      have hsub := foldl_srvRemoveStep_sublist
        ((diffHostList t.fsmTopology hosts).Removed.map canonicalize) t
      have hlen1 : ((((diffHostList t.fsmTopology hosts).Removed.map canonicalize).foldl
          srvRemoveStep t).servers).length ≤ t.cfg.srvMaxHosts :=
        le_trans hsub.length_le hinv
      constructor
      · rw [hkey]
        exact srvAddLoop_length _ hcap _ _ hlen1
      · intro a ha
        rw [hkey] at ha
        rcases srvAddLoop_mem _ _ _ a ha with h1 | ⟨hh, hmem, heq⟩
        · exact Or.inl (hsub.subset h1)
        · have hAdded : hh ∈ (diffHostList t.fsmTopology hosts).Added := by
            split at hmem
            · exact ((hshuffle _).mem_iff).mp hmem
            · exact hmem
          have hhosts : hh ∈ hosts := by
            simp only [diffHostList] at hAdded
            exact List.mem_of_mem_filter hAdded
          exact Or.inr ⟨hh, hhosts, heq⟩

/-- Witness for C5 (spec scenario 5): with `srvMaxHosts = 3`, two known
hosts and an SRV result of five, the monitored-server count ends at
exactly the cap 3, and every monitored address comes from the SRV list. -/
theorem srv_polling_respects_srvMaxHosts_witness :
    (Topology.processSRVResults id exampleSRVState exampleSRVHosts).1.servers.length ≤ 3 ∧
    (Topology.processSRVResults id exampleSRVState exampleSRVHosts).1.servers.length = 3 := by
  have h := srv_polling_respects_srvMaxHosts id (fun l => List.Perm.refl l)
    exampleSRVState exampleSRVHosts (by decide) (by decide)
  exact ⟨h.1, by decide⟩

/-! ## Lemmas for the insert result accumulation -/

/-- Wrapping an already-wrapped left summand changes nothing. -/
theorem wrap32_add_left (a b : Int) : wrap32 (wrap32 a + b) = wrap32 (a + b) := by
  unfold wrap32
  omega

/-- Wrapping twice is the same as wrapping once. -/
theorem wrap32_wrap32 (a : Int) : wrap32 (wrap32 a) = wrap32 a := by
  unfold wrap32
  omega

/-- Wrapping is the identity on in-range values. -/
theorem wrap32_small (a : Int) (h1 : -2147483648 ≤ a) (h2 : a < 2147483648) :
    wrap32 a = a := by
  unfold wrap32
  omega

/-- Accumulation across batch replies: starting from an in-range
accumulated `N`, processing replies whose decoded `n` fields are `ns`
leaves `N` at the 32-bit wrap of the running total. -/
theorem processResponses_N (replies : List Document) (ns : List Int)
    (hpair : List.Forall₂ (fun r n => buildInsertResult r = ({ N := n }, none)) replies ns) :
    ∀ i : Insert, wrap32 i.result.N = i.result.N →
      (Insert.processResponses i replies).result.N = wrap32 (i.result.N + ns.sum) := by
  induction hpair with
  | nil =>
    intro i hwrap
    simp only [Insert.processResponses, List.sum_nil, add_zero]
    exact hwrap.symm
  | cons hr hrest ih =>
    rename_i r n rs ns2
    intro i hwrap
    simp only [Insert.processResponses, Insert.processResponse]
    rw [hr]
    have step := ih { i with result := { N := wrap32 (i.result.N + n) } }
      (wrap32_wrap32 _)
    simp only at step
    rw [step, wrap32_add_left, List.sum_cons]
    ring_nf

/-- Splitting a non-empty list with a positive batch size emits
the first batch and recurses on the remainder. -/
theorem splitBatches_ne_nil {α : Type} (k : Nat) (hk : k ≠ 0) (docs : List α)
    (hd : docs ≠ []) :
    splitBatches k docs = docs.take k :: splitBatches k (docs.drop k) := by
  cases docs with
  | nil => exact absurd rfl hd
  | cons d rest =>
    rw [splitBatches]
    rw [if_neg hk]

/-- Splitting `k * m` identical documents at batch size `k` yields
exactly `m` full batches of `k` documents. -/
theorem splitBatches_replicate {α : Type} (k : Nat) (hk : 0 < k) (d : α) :
    ∀ m : Nat, splitBatches k (List.replicate (k * m) d) =
      List.replicate m (List.replicate k d) := by
  intro m
  induction m with
  | zero =>
    rw [Nat.mul_zero]
    simp [splitBatches]
  | succ m ih =>
    rw [Nat.mul_succ]
    have hne : List.replicate (k * m + k) d ≠ [] := by
      rw [Ne, List.replicate_eq_nil_iff]
      omega
    rw [splitBatches_ne_nil k (by omega) _ hne]
    rw [List.take_replicate, List.drop_replicate]
    have hmin : min k (k * m + k) = k := by omega
    have hsub : k * m + k - k = k * m := by omega
    rw [hmin, hsub, ih, List.replicate_succ]

/-- C8: the result of a multi-batch insert is the 32-bit sum of the `n`
fields of the per-batch server replies: `processResponse` adds each
per-reply `n` into the accumulated `N`, so folding it over the replies of
the split batches of one logical insert, starting from the zero result,
yields `wrap32` of their total; and (modelled batch splitting) a list of
`k * m` documents splits under `maxWriteBatchSize = k` into exactly `m`
batches of `k` documents each — in particular 50000 documents at cap
10000 give 5 batches whose per-batch replies of `n = 10000` sum to
`n = 50000`. -/
theorem insert_result_sums_batches
    (i : Insert) (replies : List Document) (ns : List Int)
    (hpair : List.Forall₂ (fun r n => buildInsertResult r = ({ N := n }, none)) replies ns)
    (hzero : i.result.N = 0) :
    (Insert.processResponses i replies).result.N = wrap32 ns.sum ∧
    (∀ (k m : Nat) (d : Document), 0 < k →
      splitBatches k (List.replicate (k * m) d) =
        List.replicate m (List.replicate k d)) := by
  constructor
  · have h := processResponses_N replies ns hpair i
      (by rw [hzero]; rfl)
    rw [hzero, zero_add] at h
    exact h
  · intro k m d hk
    exact splitBatches_replicate k hk d m

/-- Witness for C8 (spec scenario 6): five batch replies each reporting
`n = 10000` accumulate to `n = 50000`, and 50000 documents split at
`maxWriteBatchSize = 10000` into 5 batches. -/
theorem insert_result_sums_batches_witness :
    (Insert.processResponses { deployment := none, result := { N := 0 } }
      (List.replicate 5 exampleBatchReply)).result.N = 50000 ∧
    (splitBatches 10000 (List.replicate (10000 * 5) exampleBatchReply)).length = 5 := by
  have h := insert_result_sums_batches
    { deployment := none, result := { N := 0 } }
    (List.replicate 5 exampleBatchReply) (List.replicate 5 10000)
    (by
      have hb : buildInsertResult exampleBatchReply = ({ N := 10000 }, none) := rfl
      exact List.Forall₂.cons hb (List.Forall₂.cons hb (List.Forall₂.cons hb
        (List.Forall₂.cons hb (List.Forall₂.cons hb List.Forall₂.nil)))))
    rfl
  constructor
  · rw [h.1]
    decide
  · rw [h.2 10000 5 exampleBatchReply (by omega)]
    rfl

/-! ## Claims about the operation Execute guards -/

/-- C9: for each of the five operations, calling `Execute` with no
deployment set returns an error without running the executor — the result
(and the rest of the operation state) is unchanged, for every possible
executor `inner`. -/
theorem execute_requires_deployment
    (innerIns : Insert → Insert × Option GoError) (ins : Insert)
    (innerCnt : Count → Count × Option GoError) (cnt : Count)
    (innerDst : Distinct → Distinct × Option GoError) (dst : Distinct)
    (innerDrp : DropIndexes → DropIndexes × Option GoError) (drp : DropIndexes)
    (innerCrt : CreateIndexes → CreateIndexes × Option GoError) (crt : CreateIndexes)
    (hins : ins.deployment = none) (hcnt : cnt.deployment = none)
    (hdst : dst.deployment = none) (hdrp : drp.deployment = none)
    (hcrt : crt.deployment = none) :
    Insert.Execute innerIns ins = (ins, some (GoError.other
      "the Insert operation must have a Deployment set before Execute can be called")) ∧
    Count.Execute innerCnt cnt = (cnt, some (GoError.other
      "the Count operation must have a Deployment set before Execute can be called")) ∧
    Distinct.Execute innerDst dst = (dst, some (GoError.other
      "the Distinct operation must have a Deployment set before Execute can be called")) ∧
    DropIndexes.Execute innerDrp drp = (drp, some (GoError.other
      "the DropIndexes operation must have a Deployment set before Execute can be called")) ∧
    CreateIndexes.Execute innerCrt crt = (crt, some (GoError.other
      "the CreateIndexes operation must have a Deployment set before Execute can be called")) := by
  refine ⟨?_, ?_, ?_, ?_, ?_⟩
  · unfold Insert.Execute
    rw [hins]
  · unfold Count.Execute
    rw [hcnt]
  · unfold Distinct.Execute
    rw [hdst]
  · unfold DropIndexes.Execute
    rw [hdrp]
  · unfold CreateIndexes.Execute
    rw [hcrt]

/-- Witness for C9: concrete zero-valued operations with no deployment
all fail, under an executor that would otherwise clear the error. -/
theorem execute_requires_deployment_witness :
    (Insert.Execute (fun op => (op, none)) { deployment := none, result := { N := 0 } }).2 ≠
      none ∧
    (Count.Execute (fun op => (op, none)) { deployment := none, result := { N := 0 } }).2 ≠
      none ∧
    (Distinct.Execute (fun op => (op, none))
      { deployment := none, result := { Values := none } }).2 ≠ none ∧
    (DropIndexes.Execute (fun op => (op, none))
      { deployment := none, result := { NIndexesWas := 0 } }).2 ≠ none ∧
    (CreateIndexes.Execute (fun op => (op, none))
      { deployment := none
        result :=
          { CreatedCollectionAutomatically := false
            IndexesAfter := 0
            IndexesBefore := 0 } }).2 ≠ none := by
  have h := execute_requires_deployment
    (fun op => (op, none)) { deployment := none, result := { N := 0 } }
    (fun op => (op, none)) { deployment := none, result := { N := 0 } }
    (fun op => (op, none)) { deployment := none, result := { Values := none } }
    (fun op => (op, none)) { deployment := none, result := { NIndexesWas := 0 } }
    (fun op => (op, none))
    { deployment := none
      result :=
        { CreatedCollectionAutomatically := false
          IndexesAfter := 0
          IndexesBefore := 0 } }
    rfl rfl rfl rfl rfl
  refine ⟨?_, ?_, ?_, ?_, ?_⟩
  · rw [h.1]
    exact fun hc => Option.noConfusion hc
  · rw [h.2.1]
    exact fun hc => Option.noConfusion hc
  · rw [h.2.2.1]
    exact fun hc => Option.noConfusion hc
  · rw [h.2.2.2.1]
    exact fun hc => Option.noConfusion hc
  · rw [h.2.2.2.2]
    exact fun hc => Option.noConfusion hc

/-- C10: with a deployment set, `Count.Execute` swallows a
`driver.Error` with server code 26 (NamespaceNotFound) from the executor,
returning no error (and, when the executor left the result at its zero
value, a zero result); every other executor error is returned to the
caller unchanged. -/
theorem count_swallows_namespace_not_found
    (inner : Count → Count × Option GoError) (c c2 : Count) (dep : Deployment)
    (hdep : c.deployment = some dep) :
    (∀ e : DriverError, inner c = (c2, some (GoError.driver e)) → e.code = 26 →
      Count.Execute inner c = (c2, none) ∧
      (c2.result = { N := 0 } → (Count.Execute inner c).1.result = { N := 0 })) ∧
    (∀ err : GoError, inner c = (c2, some err) →
      (∀ e : DriverError, err = GoError.driver e → e.code ≠ 26) →
      Count.Execute inner c = (c2, some err)) ∧
    (inner c = (c2, none) → Count.Execute inner c = (c2, none)) := by
  refine ⟨?_, ?_, ?_⟩
  · intro e hinner hcode
    have hexec : Count.Execute inner c = (c2, none) := by
      simp only [Count.Execute, hdep, hinner]
      rw [if_pos hcode]
    exact ⟨hexec, fun hres => by rw [hexec]; exact hres⟩
  · intro err hinner hnot26
    cases err with
    | driver e =>
      simp only [Count.Execute, hdep, hinner]
      rw [if_neg (hnot26 e rfl)]
    | other msg =>
      simp only [Count.Execute, hdep, hinner]
  · intro hinner
    simp only [Count.Execute, hdep, hinner]

/-- Witness for C10: an executor failing with driver code 26 is
swallowed (nil error, zero result); one failing with driver code 11600 is
surfaced unchanged. -/
theorem count_swallows_namespace_not_found_witness :
    Count.Execute (fun op => (op, some (GoError.driver { code := 26 })))
      { deployment := some (), result := { N := 0 } } =
      ({ deployment := some (), result := { N := 0 } }, none) ∧
    Count.Execute (fun op => (op, some (GoError.driver { code := 11600 })))
      { deployment := some (), result := { N := 0 } } =
      ({ deployment := some (), result := { N := 0 } },
        some (GoError.driver { code := 11600 })) := by
  constructor
  · exact ((count_swallows_namespace_not_found
      (fun op => (op, some (GoError.driver { code := 26 })))
      { deployment := some (), result := { N := 0 } }
      { deployment := some (), result := { N := 0 } } () rfl).1
      { code := 26 } rfl rfl).1
  · exact (count_swallows_namespace_not_found
      (fun op => (op, some (GoError.driver { code := 11600 })))
      { deployment := some (), result := { N := 0 } }
      { deployment := some (), result := { N := 0 } } () rfl).2.1
      (GoError.driver { code := 11600 }) rfl
      (fun e he => by
        cases he
        decide)

end MongoDriver
